import Mathlib

/-!
Verification of the RtmpStreamer build-configuration emitter
(`src/configure.py`) against its natural-language specification.

The script reads `sys.prefix`, substitutes it into a fixed INI template
via `str.format`, and writes the result to `native-file.ini` with
`with open('native-file.ini', 'w') as native_file: native_file.write(contents)`.

We embed the template, the substitution, and a small state/trace model of
the single `open`/`write`/`close` sequence, and prove the spec's claims.
-/

namespace Configure

/-- The character `{` (written by code point to keep it out of string
literals). -/
def lbrace : Char := Char.ofNat 123

/-- The character `}`. -/
def rbrace : Char := Char.ofNat 125

/-- Replace every (left-to-right, non-overlapping) occurrence of `pat`
by `val` in `l`.  The replacement `val` is spliced in verbatim and is not
rescanned, exactly as Python's `str.format` treats a substituted value.
This models the effect of `.format(**arguments)` on a template whose only
brace fields are occurrences of the single key `pat = "\x7bkey\x7d"`. -/
def substAux (pat val : List Char) (l : List Char) : List Char :=
  match l with
  | [] => []
  | c :: rest =>
    if h : pat.isPrefixOf (c :: rest) ∧ pat ≠ [] then
      val ++ substAux pat val ((c :: rest).drop pat.length)
    else
      c :: substAux pat val rest
termination_by l.length
decreasing_by
  · have hlen : 0 < pat.length := List.length_pos.mpr h.2
    simp [List.length_drop]
    omega
  · simp

/-- Python `template.format(**{key: value})` for a template whose only
brace fields are `\x7bkey\x7d`: every such field is replaced by `value`,
verbatim. -/
def pyFormat (s key value : String) : String :=
  ⟨substAux (lbrace :: key.data ++ [rbrace]) value.data s.data⟩

/-- The triple-quoted template literal of `src/configure.py`, lines 15–22
(braces written as `\x7b`/`\x7d`). -/
def template : String :=
  "[binaries]\nc = 'gcc'\ncpp = 'g++'\n\n[built-in options]\nprefix = '\x7bpython_env\x7d'\nlibdir = '\x7bpython_env\x7d/lib'\n"

/-- `contents` of `src/configure.py`: the template with `python_env`
bound to the ambient `sys.prefix`. -/
def contents (python_env : String) : String :=
  pyFormat template "python_env" python_env

/-- The pattern `\x7bpython_env\x7d` as a character list. -/
def envPat : List Char := lbrace :: "python_env".data ++ [rbrace]

theorem substAux_nil (pat val : List Char) : substAux pat val [] = [] := by
  rw [substAux]

theorem substAux_cons_nomatch (pat val : List Char) (c : Char) (l : List Char)
    (h : ¬ pat.isPrefixOf (c :: l)) :
    substAux pat val (c :: l) = c :: substAux pat val l := by
  rw [substAux]
  simp [h]

theorem isPrefixOf_append (pat l : List Char) : pat.isPrefixOf (pat ++ l) = true := by
  induction pat with
  | nil => simp [List.isPrefixOf]
  | cons c cs ih => simp [List.isPrefixOf, ih]

theorem substAux_match (pat val l : List Char) (hne : pat ≠ []) :
    substAux pat val (pat ++ l) = val ++ substAux pat val l := by
  match pat, hne with
  | c :: cs, _ =>
    rw [substAux.eq_def]
    have hpre : (c :: cs).isPrefixOf ((c :: cs) ++ l) = true := isPrefixOf_append _ _
    simp only [List.cons_append] at hpre ⊢
    rw [dif_pos ⟨hpre, by simp⟩]
    congr 1
    have : (c :: (cs ++ l)).drop (c :: cs).length = l := by
      simpa using List.drop_left (c :: cs) l
    rw [this]

/-- In a list that does not contain `pat`'s first character, no occurrence
of `pat` starts, so substitution passes `l₁` through unchanged. -/
theorem substAux_no_head (c₀ : Char) (pat' val l₁ l₂ : List Char)
    (h : c₀ ∉ l₁) :
    substAux (c₀ :: pat') val (l₁ ++ l₂) = l₁ ++ substAux (c₀ :: pat') val l₂ := by
  induction l₁ with
  | nil => simp
  | cons c cs ih =>
    have hc : c ≠ c₀ := by
      intro he
      exact h (by simp [he])
    have hcs : c₀ ∉ cs := fun hm => h (by simp [hm])
    have hnp : ¬ (c₀ :: pat').isPrefixOf (c :: (cs ++ l₂)) := by
      simp [List.isPrefixOf]
      intro he
      exact absurd he.symm hc
    simp only [List.cons_append]
    rw [substAux_cons_nomatch _ _ _ _ hnp, ih hcs]

/-- The literal text of the template before the first `python_env` field. -/
def preText : String := "[binaries]\nc = 'gcc'\ncpp = 'g++'\n\n[built-in options]\nprefix = '"

/-- The literal text between the two `python_env` fields. -/
def midText : String := "'\nlibdir = '"

/-- The literal text after the second `python_env` field. -/
def postText : String := "/lib'\n"

theorem data_append (a b : String) : (a ++ b).data = a.data ++ b.data := rfl

theorem template_split :
    template.data =
      preText.data ++ (envPat ++ (midText.data ++ (envPat ++ postText.data))) := by
  rfl

theorem substAux_final (val : List Char) :
    substAux envPat val postText.data = postText.data := by
  have h : lbrace ∉ postText.data := by decide
  have := substAux_no_head lbrace ("python_env".data ++ [rbrace]) val postText.data [] h
  simpa [envPat, substAux_nil] using this

/-- The central rendering identity: `str.format` substitutes the prefix
verbatim at both field sites, leaving the literal text untouched. -/
theorem contents_eq (p : String) :
    contents p = preText ++ p ++ midText ++ p ++ postText := by
  have hpre : lbrace ∉ preText.data := by decide
  have hmid : lbrace ∉ midText.data := by decide
  have hdata : (contents p).data =
      preText.data ++ (p.data ++ (midText.data ++ (p.data ++ postText.data))) := by
    show substAux (lbrace :: "python_env".data ++ [rbrace]) p.data template.data = _
    rw [show (lbrace :: "python_env".data ++ [rbrace]) = envPat from rfl]
    rw [template_split]
    rw [show envPat = lbrace :: ("python_env".data ++ [rbrace]) from rfl]
    rw [substAux_no_head _ _ _ _ _ hpre]
    rw [substAux_match _ _ _ (by simp)]
    rw [substAux_no_head _ _ _ _ _ hmid]
    rw [substAux_match _ _ _ (by simp)]
    rw [show (lbrace :: ("python_env".data ++ [rbrace])) = envPat from rfl]
    rw [substAux_final]
  have : (preText ++ p ++ midText ++ p ++ postText).data =
      preText.data ++ (p.data ++ (midText.data ++ (p.data ++ postText.data))) := by
    simp [data_append]
  apply String.ext
  rw [hdata, this]

/-- Substitution passes a list free of the field-opening brace through
unchanged. -/
theorem substAux_all (val l : List Char) (h : lbrace ∉ l) :
    substAux envPat val l = l := by
  have := substAux_no_head lbrace ("python_env".data ++ [rbrace]) val l [] h
  simpa [envPat, substAux_nil] using this

/-- Modelled from the spec: the extended-variant template (spec §4.1 and
§8, "A variant form additionally includes `cython = '<prefix>/bin/cython'`
and `python = '<prefix>/bin/python'` lines under `[binaries]`"); this
variant is present in `src/configure.py` only as the commented-out lines
12–13, so the full variant file is not under `src/`. -/
def template_ext : String :=
  "[binaries]\nc = 'gcc'\ncpp = 'g++'\ncython = '\x7bpython_env\x7d/bin/cython'\npython = '\x7bpython_env\x7d/bin/python'\n\n[built-in options]\nprefix = '\x7bpython_env\x7d'\nlibdir = '\x7bpython_env\x7d/lib'\n"

/-- Modelled from the spec: the extended variant's rendered contents. -/
def contents_ext (python_env : String) : String :=
  pyFormat template_ext "python_env" python_env

/-- Literal text of the extended template before the first field. -/
def extA : String := "[binaries]\nc = 'gcc'\ncpp = 'g++'\ncython = '"

/-- Literal text between the first and second fields of the extended
template. -/
def extB : String := "/bin/cython'\npython = '"

/-- Literal text between the second and third fields of the extended
template. -/
def extC : String := "/bin/python'\n\n[built-in options]\nprefix = '"

theorem template_ext_split :
    template_ext.data =
      extA.data ++ (envPat ++ (extB.data ++ (envPat ++ (extC.data ++
        (envPat ++ (midText.data ++ (envPat ++ postText.data))))))) := by
  rfl

/-- Rendering identity for the extended variant. -/
theorem contents_ext_eq (p : String) :
    contents_ext p =
      extA ++ p ++ extB ++ p ++ extC ++ p ++ midText ++ p ++ postText := by
  have hA : lbrace ∉ extA.data := by decide
  have hB : lbrace ∉ extB.data := by decide
  have hC : lbrace ∉ extC.data := by decide
  have hmid : lbrace ∉ midText.data := by decide
  have hpost : lbrace ∉ postText.data := by decide
  have hdata : (contents_ext p).data =
      extA.data ++ (p.data ++ (extB.data ++ (p.data ++ (extC.data ++
        (p.data ++ (midText.data ++ (p.data ++ postText.data))))))) := by
    show substAux (lbrace :: "python_env".data ++ [rbrace]) p.data template_ext.data = _
    rw [show (lbrace :: "python_env".data ++ [rbrace]) = envPat from rfl]
    rw [template_ext_split]
    rw [show envPat = lbrace :: ("python_env".data ++ [rbrace]) from rfl]
    rw [substAux_no_head _ _ _ _ _ hA]
    rw [substAux_match _ _ _ (by simp)]
    rw [substAux_no_head _ _ _ _ _ hB]
    rw [substAux_match _ _ _ (by simp)]
    rw [substAux_no_head _ _ _ _ _ hC]
    rw [substAux_match _ _ _ (by simp)]
    rw [substAux_no_head _ _ _ _ _ hmid]
    rw [substAux_match _ _ _ (by simp)]
    rw [show (lbrace :: ("python_env".data ++ [rbrace])) = envPat from rfl]
    rw [substAux_all _ _ hpost]
  have : (extA ++ p ++ extB ++ p ++ extC ++ p ++ midText ++ p ++ postText).data =
      extA.data ++ (p.data ++ (extB.data ++ (p.data ++ (extC.data ++
        (p.data ++ (midText.data ++ (p.data ++ postText.data))))))) := by
    simp [data_append]
  apply String.ext
  rw [hdata, this]

/-! ### The ambient environment and the write

`src/configure.py` reads one piece of ambient state, `sys.prefix`
(line 8); it also imports `platform` and receives `sys.argv`, neither of
which it ever reads. -/

/-- The ambient interpreter state the script can see: `sys.prefix`, the
`platform` module, and `sys.argv`. -/
structure Env where
  sysPrefix : String
  platformName : String
  argv : List String

/-- The `arguments` dict of lines 7–9: its single entry `python_env`. -/
def arguments (e : Env) : String := e.sysPrefix

/-- What the script renders in environment `e`: only `sys.prefix` enters
the template. -/
def contentsOfEnv (e : Env) : String := contents (arguments e)

/-- The state of `native-file.ini` on disk: `none` when the file is
absent. -/
structure FS where
  native_file : Option String
deriving DecidableEq

/-- `open('native-file.ini', 'w')` on success: mode `'w'` truncates the
file to empty (creating it if absent) before anything is written. -/
def openTrunc (_fs : FS) : FS := ⟨some ""⟩

/-- `native_file.write(s)` on success: appends `s` to the open file. -/
def writeStr (fs : FS) (s : String) : FS :=
  ⟨some (fs.native_file.getD "" ++ s)⟩

/-- How far the single `open`/`write` sequence of lines 25–26 gets: the
ambient I/O outcome. -/
inductive WriteOutcome
  | ok
  | openFail
  | writeFail
deriving DecidableEq

/-- The on-disk result of running lines 25–26 with rendered text
`contents p` against prior state `fs`:
success writes everything; a failing `open` leaves the file untouched;
a `write` that raises after a successful `open` leaves the file already
truncated by the `'w'` open. -/
def emitFS (p : String) (fs : FS) : WriteOutcome → FS
  | .ok => writeStr (openTrunc fs) (contents p)
  | .openFail => fs
  | .writeFail => openTrunc fs

/-- The script's single error kind: an I/O failure of the open or the
write (spec §7, `WriteFailure`). -/
inductive IOErr
  | writeFailure
deriving DecidableEq

/-- The result the script's run propagates: the code has no handler, no
branch and no validation, so the outcome of `open`/`write` is the whole
story. -/
def emitResult (_p : String) : WriteOutcome → Except IOErr Unit
  | .ok => .ok ()
  | .openFail => .error .writeFailure
  | .writeFail => .error .writeFailure

/-- Process exit status: 0 on success, nonzero when the error propagates
out of the script. -/
def exitCode : Except IOErr Unit → Nat
  | .ok _ => 0
  | .error _ => 1

/-- Observable file-handle events of lines 25–26. -/
inductive FileEvent
  | openedW
  | wroteAll
  | closed
deriving DecidableEq

/-- The handle trace of the `with open(...) as native_file:` block: the
`with` statement closes the handle on the success path and on the path
where `write` raises; when `open` itself fails no handle ever exists. -/
def emitTrace : WriteOutcome → List FileEvent
  | .ok => [.openedW, .wroteAll, .closed]
  | .openFail => []
  | .writeFail => [.openedW, .closed]

/-- A successful run leaves exactly the rendered text on disk. -/
theorem emitFS_ok (p : String) (fs : FS) :
    (emitFS p fs .ok).native_file = some (contents p) := by
  show some ("" ++ contents p) = some (contents p)
  rw [String.empty_append]

/-! ### The spec's claims -/

/-- C1: for every prefix string `p` supplied as the ambient installation
prefix, the rendered output text contains a `prefix` value exactly equal
to `p` and a `libdir` value exactly equal to `p ++ "/lib"`, and both lie
in the `[built-in options]` section. -/
theorem claim_C1 (p : String) :
    ∃ pre bins,
      contents p = pre ++ ("prefix = '" ++ p ++ "'\n") ++ ("libdir = '" ++ p ++ "/lib'\n")
      ∧ pre = bins ++ "[built-in options]\n"
      ∧ bins = "[binaries]\nc = 'gcc'\ncpp = 'g++'\n\n" := by
  refine ⟨"[binaries]\nc = 'gcc'\ncpp = 'g++'\n\n[built-in options]\n",
    "[binaries]\nc = 'gcc'\ncpp = 'g++'\n\n", ?_, rfl, rfl⟩
  rw [contents_eq,
    show preText
      = ("[binaries]\nc = 'gcc'\ncpp = 'g++'\n\n[built-in options]\n" ++ "prefix = '" : String)
      from rfl,
    show midText = ("'\n" ++ "libdir = '" : String) from rfl,
    show postText = ("/lib'\n" : String) from rfl]
  simp only [String.append_assoc]

/-- C2: the `[binaries]` head of the rendered output is one fixed constant,
containing the lines `c = 'gcc'` and `cpp = 'g++'`, independent of the
prefix `p`. -/
theorem claim_C2 :
    ∃ binSec : String,
      binSec = "[binaries]\nc = 'gcc'\ncpp = 'g++'\n\n"
      ∧ ∀ p : String, ∃ rest, contents p = binSec ++ rest := by
  refine ⟨_, rfl, fun p =>
    ⟨"[built-in options]\nprefix = '" ++ (p ++ (midText ++ (p ++ postText))), ?_⟩⟩
  rw [contents_eq,
    show preText
      = ("[binaries]\nc = 'gcc'\ncpp = 'g++'\n\n" ++ "[built-in options]\nprefix = '" : String)
      from rfl]
  simp only [String.append_assoc]

/-- C3: with ambient prefix `/usr/local` the emitted content is exactly the
quoted text, no more, no less. -/
theorem claim_C3 :
    contents "/usr/local"
      = "[binaries]\nc = 'gcc'\ncpp = 'g++'\n\n[built-in options]\nprefix = '/usr/local'\nlibdir = '/usr/local/lib'\n" := by
  rw [contents_eq]
  rfl

/-- C4: after a successful run, `native-file.ini` holds exactly the text
rendered from `p`, whatever its prior state (absent, or any content from
an earlier run): the `'w'` open truncates, so nothing residual survives. -/
theorem claim_C4 (p : String) (fs : FS) :
    (emitFS p fs .ok).native_file = some (contents p) :=
  emitFS_ok p fs

/-- C5: a run fails (with the single I/O error kind) exactly when the
open/write outcome is a failure — never because of the prefix value, which
the result does not depend on — and the exit status is 0 exactly on a
successful write. -/
theorem claim_C5 (p : String) (oc : WriteOutcome) :
    ((∃ e, emitResult p oc = .error e) ↔ oc ≠ .ok)
    ∧ (∀ q, emitResult p oc = emitResult q oc)
    ∧ (exitCode (emitResult p oc) = 0 ↔ oc = .ok) := by
  cases oc <;> simp [emitResult, exitCode] <;> exact ⟨.writeFailure, trivial⟩

/-- C6, as stated, is false: when `open` succeeds and the `write` then
fails, the file has already been truncated by mode `'w'`, so the disk
state (here: the empty file) is neither the complete rendered text nor
the prior content `"old"`. -/
theorem claim_C6_counterexample :
    (emitFS "/usr/local" ⟨some "old"⟩ .writeFail).native_file
        ≠ some (contents "/usr/local")
    ∧ emitFS "/usr/local" ⟨some "old"⟩ .writeFail ≠ ⟨some "old"⟩ := by
  constructor
  · show some "" ≠ some (contents "/usr/local")
    rw [contents_eq]
    decide
  · show (⟨some ""⟩ : FS) ≠ ⟨some "old"⟩
    decide

/-- C6 (amended): the full output string is rendered before any file
operation, and after a run the file is the complete rendered text, or is
unchanged (the open failed), or is the empty file left by the truncating
open (the write failed) — never a partially rendered text. -/
theorem claim_C6 (p : String) (fs : FS) (oc : WriteOutcome) :
    (emitFS p fs oc).native_file = some (contents p)
    ∨ emitFS p fs oc = fs
    ∨ (emitFS p fs oc).native_file = some "" := by
  cases oc with
  | ok =>
    left
    show some ("" ++ contents p) = some (contents p)
    rw [String.empty_append]
  | openFail => right; left; rfl
  | writeFail => right; right; rfl

/-- C7: in the extended variant, the `[binaries]` section additionally
carries `cython = '<p>/bin/cython'` and `python = '<p>/bin/python'` for
every prefix `p`. -/
theorem claim_C7 (p : String) :
    ∃ A B, A = "[binaries]\nc = 'gcc'\ncpp = 'g++'\n"
      ∧ contents_ext p
        = A ++ ("cython = '" ++ p ++ "/bin/cython'\n")
            ++ ("python = '" ++ p ++ "/bin/python'\n") ++ B := by
  refine ⟨_, "\n[built-in options]\nprefix = '" ++ (p ++ (midText ++ (p ++ postText))),
    rfl, ?_⟩
  rw [contents_ext_eq,
    show extA = ("[binaries]\nc = 'gcc'\ncpp = 'g++'\n" ++ "cython = '" : String) from rfl,
    show extB = ("/bin/cython'\n" ++ "python = '" : String) from rfl,
    show extC = ("/bin/python'\n" ++ "\n[built-in options]\nprefix = '" : String) from rfl]
  simp only [String.append_assoc]

/-- C8: on every outcome of the run, each opened handle is closed
(equal counts), a nonempty trace ends in the close, and there is at most
one write, which can only stand between the open and the close. -/
theorem claim_C8 (oc : WriteOutcome) :
    (emitTrace oc).count FileEvent.openedW = (emitTrace oc).count FileEvent.closed
    ∧ ((emitTrace oc).getLast? = some FileEvent.closed ∨ emitTrace oc = [])
    ∧ (emitTrace oc = []
        ∨ emitTrace oc = [FileEvent.openedW, FileEvent.closed]
        ∨ emitTrace oc = [FileEvent.openedW, FileEvent.wroteAll, FileEvent.closed]) := by
  cases oc <;> simp [emitTrace]

/-- C9: the rendered text is a deterministic pure function of
`sys.prefix` alone — two environments agreeing on `sys.prefix` render the
same text and (on success) leave the same file content, whatever their
platform, argv or the file's prior state. -/
theorem claim_C9 (e₁ e₂ : Env) (fs₁ fs₂ : FS)
    (h : e₁.sysPrefix = e₂.sysPrefix) :
    contentsOfEnv e₁ = contentsOfEnv e₂
    ∧ (emitFS e₁.sysPrefix fs₁ .ok).native_file
        = (emitFS e₂.sysPrefix fs₂ .ok).native_file := by
  constructor
  · unfold contentsOfEnv arguments
    rw [h]
  · have h₁ := emitFS_ok e₁.sysPrefix fs₁
    have h₂ := emitFS_ok e₂.sysPrefix fs₂
    rw [h₁, h₂, h]

/-- Witness for C9 at two concrete environments differing in platform,
argv and prior file state but agreeing on `sys.prefix`. -/
theorem claim_C9_witness :
    contentsOfEnv ⟨"/usr", "Linux", ["--fast"]⟩ = contentsOfEnv ⟨"/usr", "Darwin", []⟩
    ∧ (emitFS (Env.mk "/usr" "Linux" ["--fast"]).sysPrefix ⟨some "prior"⟩ .ok).native_file
        = (emitFS (Env.mk "/usr" "Darwin" []).sysPrefix ⟨none⟩ .ok).native_file :=
  claim_C9 ⟨"/usr", "Linux", ["--fast"]⟩ ⟨"/usr", "Darwin", []⟩ ⟨some "prior"⟩ ⟨none⟩ rfl

/-- C10: the prefix is substituted verbatim — character for character,
with no escaping, quoting or normalization — at both field sites, for
every `p`, including one holding quotes, braces or newlines. -/
theorem claim_C10 (p : String) :
    (contents p).data
      = preText.data ++ (p.data ++ (midText.data ++ (p.data ++ postText.data))) := by
  rw [contents_eq]
  simp [data_append]

end Configure
